import Mathlib

/-!
Shallow embedding of the fishing-score engine (`sensor_berechnung.py`) of the
`fishingscore` repository.  Machine floats are modelled as exact rationals
(`ℚ`); `datetime` instants are modelled as rational minutes on a linear time
axis; Python dicts used as records are modelled as structures whose optional
keys are `Option` fields; Python's `math.exp` (transcendental, not exactly
representable over `ℚ`) is threaded through every definition that needs it as
an explicit function parameter `expf : ℚ → ℚ`, and every theorem proved below
holds for an arbitrary such parameter unless it instantiates it explicitly.
-/

/-! ## Basic helpers from the source -/

/-- `_clamp(val, low, high)` from `sensor_berechnung.py`: bounds `val` to
`[low, high]` via `max(low, min(high, val))`. -/
def clamp (val low high : ℚ) : ℚ := max low (min high val)

/-- ASCII lower-casing of one character, modelling Python's `str.lower` on the
ASCII labels used by the program. -/
def lowerChar (c : Char) : Char :=
  if c.isUpper then Char.ofNat (c.toNat + 32) else c

/-- ASCII lower-casing of a string, modelling Python's `str.lower` on the
ASCII preference labels used by the program. -/
def lowerStr (s : String) : String := String.mk (s.data.map lowerChar)

/-- Python's `min` over a nonempty list (`[]` never occurs at call sites; we
return `0` there to stay total). -/
def pymin : List ℚ → ℚ
  | [] => 0
  | x :: xs => xs.foldl min x

/-- Python's `max` over a nonempty list (`[]` never occurs at call sites; we
return `0` there to stay total). -/
def pymax : List ℚ → ℚ
  | [] => 0
  | x :: xs => xs.foldl max x

/-- Python's `min(candidates, key=f)`: the first element of the list whose key
is minimal (later elements replace the current best only on a strictly smaller
key). Returns `0` on `[]`, which never occurs at call sites. -/
def min_by (f : ℚ → ℚ) : List ℚ → ℚ
  | [] => 0
  | x :: xs => xs.foldl (fun b d => if f d < f b then d else b) x

/-- A weight table, modelling the `WEIGHTS` dict loaded from `weights.json`. -/
def Weights : Type := List (String × ℚ)

/-- `WEIGHTS.get(key, 0)`. -/
def wget (w : Weights) (key : String) : ℚ := (List.lookup key w).getD 0

/-- The built-in fallback weight table of `load_weights`. -/
def fallback_weights : Weights :=
  [("Temperatur", 18), ("TempTiefe_Match", 15), ("Wassertiefe", 12),
   ("Saison", 10), ("Tageszeitfenster", 10), ("Bewölkung", 6),
   ("Windrichtung", 5), ("Windig", 4), ("Luftdruck_trend", 4),
   ("Trübung", 4), ("Regen_Bonus", 3), ("Regen_Malus", 3), ("Mondphase", 3)]

/-- A buffer table, modelling the `BUFFERS` dict loaded from `weights.json`. -/
def Buffers : Type := List (String × ℚ)

/-- `BUFFERS.get(key, default)`. -/
def bget (b : Buffers) (key : String) (default : ℚ) : ℚ :=
  (List.lookup key b).getD default

/-- The built-in fallback buffer table of `load_buffers` (minutes). -/
def fallback_buffers : Buffers := [("Dämmerung", 45), ("Tag", 30), ("Nacht", 30)]

/-- `TREND_MAP.get(s, s)` from `sensor_berechnung.py`. -/
def trend_map (s : String) : String :=
  if s = "leicht fallend" then "fallend"
  else if s = "leicht steigend" then "steigend"
  else if s = "stabil" then "stagnierend"
  else if s = "gleichbleibend" then "stagnierend"
  else s

/-- `HALF_MOONS` from `sensor_berechnung.py`. -/
def HALF_MOONS : List String := ["Zunehmender Mond", "Abnehmender Mond"]

/-! ## Pure classification helpers from the source -/

/-- `round_to_next_five(pct)`: `max(0, min(100, ceil(pct / 5) * 5))`, rounding
up to the next multiple of 5 and clamping to `[0, 100]`. -/
def round_to_next_five (pct : ℚ) : ℤ := max 0 (min 100 (5 * ⌈pct / 5⌉))

/-- `classify_clouds(fraction)`. -/
def classify_clouds (fraction : Option ℚ) : String :=
  match fraction with
  | none => "unbekannt"
  | some f => if f ≥ 0.5 then "bewölkt" else if f ≤ 0.2 then "klar" else "wechselhaft"

/-- `get_season(month)`. -/
def get_season (month : ℤ) : String :=
  if month ∈ [3, 4, 5] then "Frühling"
  else if month ∈ [6, 7, 8] then "Sommer"
  else if month ∈ [9, 10, 11] then "Herbst"
  else "Winter"

/-- `classify_precip(mm_h)`. -/
def classify_precip (mm_h : Option ℚ) : String :=
  match mm_h with
  | none => "unbekannt"
  | some v => if v ≥ 0.2 then "regen" else "trocken"

/-- The possible values of the raw `Trübung` key of a sensor record (the
Python code compares it against both strings and integers). -/
inductive TruebungValue where
  | s (v : String)
  | n (v : ℤ)
deriving DecidableEq

/-- `classify_trübung(entry)` (the argument is the raw `Trübung` value of the
record, `none` when the key is absent). -/
def classify_truebung (val : Option TruebungValue) : String :=
  if val = some (.s "trüb") ∨ val = some (.s "stark trüb") ∨ val = some (.n 2) then "trüb"
  else if val = some (.s "leicht trüb") ∨ val = some (.n 1) then "leicht trüb"
  else "klar"

/-- `grad_to_windrichtung(grad)`: maps a bearing in degrees to one of the 8
compass labels via `int((grad + 22.5) // 45) % 8`. -/
def grad_to_windrichtung (grad : Option ℚ) : String :=
  match grad with
  | none => "unbekannt"
  | some g =>
      ["N", "NO", "O", "SO", "S", "SW", "W", "NW"].getD ((⌊(g + 22.5) / 45⌋ % 8).toNat) "N"

/-- `time_in_window(now, s, e)`: membership of an instant in a window,
treating `s ≥ e` as a window that spans midnight. Instants are rational
minutes on a linear time axis. -/
def time_in_window (now s e : ℚ) : Bool :=
  if s < e then decide (s ≤ now) && decide (now ≤ e)
  else decide (now ≥ s) || decide (now ≤ e)

/-- `gauss_score(diff, weight, sigma)`, with Python's `math.exp` supplied as
the explicit parameter `expf`. -/
def gauss_score (expf : ℚ → ℚ) (diff weight sigma : ℚ) : ℚ :=
  if sigma ≤ 0 ∨ weight ≤ 0 then 0
  else weight * expf (-(diff ^ 2) / (2 * sigma ^ 2))

/-! ## Thermal profile model -/

/-- The summer epilimnion depth `clamp(0.2*(surface_temp-4) + 0.2*clamp(wind,0,5), 2, 6)`
(the formula appears verbatim in both `temp_profile` and
`stratification_layers`). -/
def epiDepth (surface_temp wind : ℚ) : ℚ :=
  clamp (0.2 * (surface_temp - 4) + 0.2 * clamp wind 0 5) 2 6

/-- The summer thermocline thickness `clamp(3 + 0.3*clamp(wind,0,5), 3, 5)`
(the formula appears verbatim in both `temp_profile` and
`stratification_layers`). -/
def thermoThickness (wind : ℚ) : ℚ :=
  clamp (3 + 0.3 * clamp wind 0 5) 3 5

/-- `temp_profile(depth, surface_temp, season, wind_speed, cloud)`: the
estimated water temperature at `depth` metres. -/
def temp_profile (depth surface_temp : ℚ) (season : String)
    (wind_speed cloud : Option ℚ) : ℚ :=
  let wind := wind_speed.getD 0
  let cloudv := cloud.getD 0
  if season = "Sommer" then
    let epi := epiDepth surface_temp wind
    let thermo := thermoThickness wind
    if depth ≤ epi then surface_temp - depth * 0.2
    else if depth ≤ epi + thermo then
      surface_temp - epi * 0.2 - (depth - epi) * 1.2
    else
      max (surface_temp - epi * 0.2 - thermo * 1.2 - (depth - epi - thermo) * 0.3) 4
  else if season = "Frühling" ∨ season = "Herbst" then
    surface_temp + 0.5 * (1 - cloudv)
  else if season = "Winter" then
    (if depth ≤ 0.5 then max 0.1 surface_temp else 4)
  else surface_temp

/-- `stratification_layers(surface_temp, season, wind)`: epilimnion depth and
thermocline thickness for summer; for other seasons the source returns
`(float("inf"), 0.0)`, which we model as `(none, 0)`. -/
def stratification_layers (surface_temp : ℚ) (season : String) (wind : ℚ) :
    Option ℚ × ℚ :=
  if season = "Sommer" then (some (epiDepth surface_temp wind), thermoThickness wind)
  else (none, 0)

/-- The candidate restriction of `choose_best_depth`: depths not exceeding
`limit = epi + thermo` when the stratification bound is finite, with fallback
to the full preferred set when none qualify (or when the bound is the
source's `float("inf")`, modelled by `none`). -/
def candidatesFor (pref_depths : List ℚ) (limit : Option ℚ) : List ℚ :=
  match limit with
  | some l =>
      let c := pref_depths.filter (fun d => decide (d ≤ l))
      if c = [] then pref_depths else c
  | none => pref_depths

/-- `choose_best_depth(surface_temp, season, pref_depths, pref_temps,
tod_bias, wind_speed, cloud)`: the temperature- and stratification-optimised
fishing depth.  A `none` epilimnion bound (the source's `float("inf")`) lets
every preferred depth qualify as a candidate. -/
def choose_best_depth (surface_temp : ℚ) (season : String)
    (pref_depths pref_temps : List ℚ) (tod_bias : Option String)
    (wind_speed cloud : ℚ) : ℚ :=
  if pref_depths = [] then 0
  else
    let strat := stratification_layers surface_temp season wind_speed
    let candidates := candidatesFor pref_depths (strat.1.map (fun epi => epi + strat.2))
    let target :=
      if pref_temps = [] then surface_temp else pref_temps.sum / pref_temps.length
    let best := min_by
      (fun d => |temp_profile d surface_temp season (some wind_speed) (some cloud) - target|)
      candidates
    if tod_bias = some "flach" ∧ best > pymin pref_depths then
      max (pymin pref_depths) (best - 0.5)
    else if tod_bias = some "tief" ∧ best < pymax pref_depths then
      min (pymax pref_depths) (best + 0.5)
    else best

/-! ## Data model -/

/-- One sensor record (one per species per cycle).  Optional fields model
dict keys that may be absent/`None`; the Python `.get` defaults are applied
at the use sites, exactly as in the source. -/
structure SensorRecord where
  Art : String := ""
  Oberflaeche_temp : Option ℚ := none
  Windgeschwindigkeit : Option ℚ := none
  Windgeschwindigkeit_jetzt : Option ℚ := none
  cloudFraction : Option ℚ := none
  precipIntensity : Option ℚ := none
  windBearing : Option ℚ := none
  Windrichtung : Option String := none
  Mondphase : Option String := none
  Truebung : Option TruebungValue := none
  Luftdruck_trend : Option String := none
  actual_depth : Option ℚ := none

/-- One species preference profile (an entry of `fisch.json`).  Absent keys
behave as the empty list / `False`, which is what the source's `.get(key, [])`
and `.get("Regen", False)` produce, so we bake those defaults in. -/
structure Preference where
  Bevorzugte_Wassertemperatur : List ℚ := []
  Bevorzugte_Wassertiefe_Fruehling_Herbst : List ℚ := []
  Bevorzugte_Wassertiefe_Sommer : List ℚ := []
  Bevorzugte_Wassertiefe_Winter : List ℚ := []
  Bevorzugte_Tageszeit : List String := []
  Bevorzugte_Windrichtung : List String := []
  Bevorzugte_Mondphase : List String := []
  Bevorzugte_Wetter : List String := []
  Truebung : List String := []
  Bevorzugter_Luftdrucktrend : List String := []
  Regen : Bool := false
  Beste_Fangsaison : List ℤ := []

/-- The clock/astronomy context of one evaluation cycle: the current instant
(rational minutes), the current calendar month (from `(sunrise or now).date()`)
and the sunrise/sunset anchors of `loc`. -/
structure Env where
  now : ℚ := 0
  month : ℤ := 1
  sunrise : Option ℚ := none
  sunset : Option ℚ := none

/-- The dict of `(start, end)` day-part windows returned by
`build_time_windows` (a key is present iff its window was computed). -/
structure TimeWindows where
  Morgen : Option (ℚ × ℚ) := none
  Abend : Option (ℚ × ℚ) := none
  Tag : Option (ℚ × ℚ) := none
  Nacht : Option (ℚ × ℚ) := none

/-! ## Light model and time windows -/

/-- `light_modifier(cloud, wind, precip)`: effective daylight level in `[0,1]`. -/
def light_modifier (cloud wind precip : ℚ) : ℚ :=
  let cloud_eff := cloud + 0.02 * min wind 10
  let rain_eff : ℚ := if precip ≥ 0.2 then 0.15 else 0
  max 0 (1 - clamp (cloud_eff + rain_eff) 0 1)

/-- `build_time_windows(sunrise, sunset, prefs, cloud, wind, precip)`: the
adaptive `(start, end)` windows, in minutes.  The source works in hours
(buffer minutes divided by 60, then `timedelta(hours=...)`); on the minute
axis the shift is just `buffer * factor` minutes. -/
def build_time_windows (sunrise sunset : Option ℚ) (prefs : List String)
    (cloud wind precip : ℚ) (buffers : Buffers) : TimeWindows :=
  if sunrise = none ∧ sunset = none then {} else
  let lm := light_modifier cloud wind precip
  let dawn := bget buffers "Dämmerung" 45 * (1 + (1 - lm))
  let daybuf := bget buffers "Tag" 30 * lm
  let nightb := bget buffers "Nacht" 30 * (1 + (1 - lm))
  { Morgen := if "Morgen" ∈ prefs then sunrise.map (fun sr => (sr - dawn, sr + dawn)) else none
    Abend := if "Abend" ∈ prefs then sunset.map (fun ss => (ss - dawn, ss + dawn)) else none
    Tag := if "Tag" ∈ prefs then
        match sunrise, sunset with
        | some sr, some ss => some (sr + daybuf, ss - daybuf)
        | _, _ => none
      else none
    Nacht := if "Nacht" ∈ prefs then
        match sunrise, sunset with
        | some sr, some ss => some (ss + nightb, sr + nightb + 1440)
        | _, _ => none
      else none }

/-- Whether `now` lies in any of the windows (`any(time_in_window(now, *w)
for w in wins.values())` in `score_temp_and_depth`). -/
def anyWindowContains (wins : TimeWindows) (now : ℚ) : Bool :=
  (match wins.Morgen with | some (s, e) => time_in_window now s e | none => false) ||
  (match wins.Abend with | some (s, e) => time_in_window now s e | none => false) ||
  (match wins.Tag with | some (s, e) => time_in_window now s e | none => false) ||
  (match wins.Nacht with | some (s, e) => time_in_window now s e | none => false)

/-- The score added by `score_time_of_day` for one (possibly absent) window:
full light-scaled weight inside the window, the same within one hour of
either edge, else nothing. -/
def windowContribution (now : ℚ) (weights : Weights) (cloud wind precip : ℚ)
    (w : Option (ℚ × ℚ)) : ℚ :=
  match w with
  | none => 0
  | some (s, e) =>
      if time_in_window now s e then
        wget weights "Tageszeitfenster" * max 0.4 (light_modifier cloud wind precip)
      else if time_in_window now (s - 60) s ∨ time_in_window now e (e + 60) then
        wget weights "Tageszeitfenster" * max 0.4 (light_modifier cloud wind precip)
      else 0

/-- `score_time_of_day(now, sunrise, sunset, pref, cloud, wind, precip)`:
the time-of-day score together with the windows it was based on. -/
def score_time_of_day (now : ℚ) (sunrise sunset : Option ℚ) (pref : Preference)
    (weights : Weights) (buffers : Buffers) (cloud wind precip : ℚ) :
    ℚ × TimeWindows :=
  let wins := build_time_windows sunrise sunset pref.Bevorzugte_Tageszeit cloud wind precip buffers
  (windowContribution now weights cloud wind precip wins.Morgen +
   windowContribution now weights cloud wind precip wins.Abend +
   windowContribution now weights cloud wind precip wins.Tag +
   windowContribution now weights cloud wind precip wins.Nacht, wins)

/-! ## Combined temperature and depth scoring -/

/-- The result dict of `score_temp_and_depth`. -/
structure Parts where
  temp_score : ℚ
  depth_score : ℚ
  match_score : ℚ
  temp_at_depth : Option ℚ
  actual_depth : Option ℚ
  matched : Bool
  diff_t : Option ℚ
  min_diff_d : Option ℚ

/-- `score_temp_and_depth(entry, pref, month, weights)`.  A missing surface
temperature short-circuits to the all-zero/`none` dict.  The depth chosen when
the record carries no `actual_depth` uses the current instant `now` (the
source calls `datetime.now`), building bias windows anchored at `now` itself. -/
def score_temp_and_depth (expf : ℚ → ℚ) (buffers : Buffers) (now : ℚ)
    (entry : SensorRecord) (pref : Preference) (month : ℤ) (weights : Weights) :
    Parts :=
  let wind := entry.Windgeschwindigkeit.getD 0
  let cloud := entry.cloudFraction.getD 0
  match entry.Oberflaeche_temp with
  | none =>
      { temp_score := 0, depth_score := 0, match_score := 0,
        temp_at_depth := none, actual_depth := none,
        matched := false, diff_t := none, min_diff_d := none }
  | some surf_temp =>
      let season := get_season month
      let preferred_depths :=
        if season = "Frühling" ∨ season = "Herbst" then
          pref.Bevorzugte_Wassertiefe_Fruehling_Herbst
        else if season = "Sommer" then pref.Bevorzugte_Wassertiefe_Sommer
        else pref.Bevorzugte_Wassertiefe_Winter
      let actual_depth :=
        match entry.actual_depth with
        | some d => d
        | none =>
            let precip := entry.precipIntensity.getD 0
            let wins := build_time_windows (some now) (some now)
              ["Morgen", "Abend", "Nacht"] cloud wind precip buffers
            let tod_bias := if anyWindowContains wins now then some "flach" else none
            choose_best_depth surf_temp season preferred_depths
              pref.Bevorzugte_Wassertemperatur tod_bias wind cloud
      let temp_at_depth := temp_profile actual_depth surf_temp season (some wind) (some cloud)
      let prefs_t := pref.Bevorzugte_Wassertemperatur
      let diff_t :=
        if prefs_t = [] then |temp_at_depth - surf_temp|
        else pymin (prefs_t.map (fun p => |temp_at_depth - p|))
      let sigma : ℚ :=
        if prefs_t = [] then 2
        else 0.25 * (if pymax prefs_t - pymin prefs_t = 0 then 1 else pymax prefs_t - pymin prefs_t)
      let temp_weight := wget weights "Temperatur"
      let temp_score := gauss_score expf diff_t temp_weight sigma
      let temp_ok := decide (temp_score ≥ 0.3 * temp_weight)
      let dd :=
        if preferred_depths = [] then (none, 0)
        else
          let m := pymin (preferred_depths.map (fun d => |actual_depth - d|))
          let depth_weight := wget weights "Wassertiefe"
          (some m, if m ≤ 0.5 then depth_weight
                   else if m ≤ 1 then depth_weight * 0.5 else 0)
      let matched := temp_ok && decide (dd.2 > 0)
      let match_score := if matched then wget weights "TempTiefe_Match" else 0
      { temp_score := temp_score, depth_score := dd.2, match_score := match_score,
        temp_at_depth := some temp_at_depth, actual_depth := some actual_depth,
        matched := matched, diff_t := some diff_t, min_diff_d := dd.1 }

/-! ## Scoring engine -/

/-- The wind-direction label the scoring loop uses for a record: resolved
from `windBearing` when that key holds a number, else the record's own
`Windrichtung` label, else `"unbekannt"`. -/
def windrichtung_of (rec : SensorRecord) : String :=
  match rec.windBearing with
  | some g => grad_to_windrichtung (some g)
  | none => rec.Windrichtung.getD "unbekannt"

/-- Step 2 condition: species prefers `"alle"` or the resolved label
(case-insensitively). -/
def windrichtungOk (pref : Preference) (rec : SensorRecord) : Bool :=
  let pw := pref.Bevorzugte_Windrichtung.map lowerStr
  decide ("alle" ∈ pw) || decide (lowerStr (windrichtung_of rec) ∈ pw)

/-- Step 2: wind-direction score. -/
def windrichtungContribution (weights : Weights) (pref : Preference)
    (rec : SensorRecord) : ℚ :=
  if windrichtungOk pref rec then wget weights "Windrichtung" else 0

/-- Step 3: turbidity score. -/
def truebungContribution (weights : Weights) (pref : Preference)
    (rec : SensorRecord) : ℚ :=
  if classify_truebung rec.Truebung ∈ pref.Truebung then wget weights "Trübung" else 0

/-- Step 4 wind speed used for the wind tip:
`rec.get("Windgeschwindigkeit jetzt") or rec.get("Windgeschwindigkeit", 0.0)`
(Python `or`: both a missing key and a `0.0` reading fall through). -/
def windNow (rec : SensorRecord) : ℚ :=
  match rec.Windgeschwindigkeit_jetzt with
  | some w => if w = 0 then rec.Windgeschwindigkeit.getD 0 else w
  | none => rec.Windgeschwindigkeit.getD 0

/-- Step 5 condition: species prefers `"alle"`, or the observed phase label
matches case-insensitively, or the species accepts `"halbmond"` and the
observed phase is in `HALF_MOONS`. -/
def mondOk (pref : Preference) (rec : SensorRecord) : Bool :=
  let mond_ist := lowerStr (rec.Mondphase.getD "")
  let mond_pref := pref.Bevorzugte_Mondphase.map lowerStr
  decide ("alle" ∈ mond_pref) || decide (mond_ist ∈ mond_pref) ||
    (decide ("halbmond" ∈ mond_pref) &&
      (match rec.Mondphase with
       | some p => decide (p ∈ HALF_MOONS)
       | none => false))

/-- Step 6: season score (`prev_m`/`next_m` wrap December/January). -/
def saisonContribution (weights : Weights) (month : ℤ) (pref : Preference) : ℚ :=
  let saison_monate := pref.Beste_Fangsaison
  let prev_m := if month = 1 then 12 else month - 1
  let next_m := if month = 12 then 1 else month + 1
  if month ∈ saison_monate then wget weights "Saison"
  else if prev_m ∈ saison_monate ∨ next_m ∈ saison_monate then
    wget weights "Saison" * 0.5
  else 0

/-- Step 7 preference mapping of weather labels onto cloud classes. -/
def mappedWetter (pref : Preference) : List String :=
  pref.Bevorzugte_Wetter.foldr
    (fun lw acc =>
      let l := lowerStr lw
      (if l = "klar" then ["klar", "fast klar"]
       else if l = "dunstig" ∨ l = "neblig" then ["wechselhaft"]
       else [l]) ++ acc) []

/-- Step 7: cloud-cover score, only evaluated outside the night. -/
def bewoelkungContribution (weights : Weights) (is_night : Bool)
    (pref : Preference) (rec : SensorRecord) : ℚ :=
  if is_night then 0
  else if classify_clouds (some (rec.cloudFraction.getD 0)) ∈ mappedWetter pref then
    wget weights "Bewölkung"
  else 0

/-- Step 8: rain bonus. -/
def regenContribution (weights : Weights) (pref : Preference)
    (rec : SensorRecord) : ℚ :=
  if classify_precip (some (rec.precipIntensity.getD 0)) = "regen" ∧ pref.Regen then
    wget weights "Regen_Bonus"
  else 0

/-- Step 9 condition: the record's pressure-trend label, lower-cased, occurs
among the preferred trends after synonym mapping. -/
def luftdruckOk (pref : Preference) (rec : SensorRecord) : Bool :=
  decide (lowerStr (rec.Luftdruck_trend.getD "unbekannt") ∈
    pref.Bevorzugter_Luftdrucktrend.map (fun r => trend_map (lowerStr r)))

/-- Step 9: pressure-trend score. -/
def luftdruckContribution (weights : Weights) (pref : Preference)
    (rec : SensorRecord) : ℚ :=
  if luftdruckOk pref rec then wget weights "Luftdruck_trend" else 0

/-- `is_night` of the scoring loop:
`bool(sunrise and sunset and (now < sunrise or now > sunset))`. -/
def isNight (env : Env) : Bool :=
  match env.sunrise, env.sunset with
  | some sr, some ss => decide (env.now < sr) || decide (env.now > ss)
  | _, _ => false

/-- The accumulated score of one record: the match bonus of
`score_temp_and_depth` plus the factor contributions of steps 2–10.  (The
`temp_score`/`depth_score` sub-scores, the wind-speed factor and the moon
phase never enter this sum in the source.) -/
def recordScore (expf : ℚ → ℚ) (weights : Weights) (buffers : Buffers)
    (env : Env) (pref : Preference) (rec : SensorRecord) : ℚ :=
  (score_temp_and_depth expf buffers env.now rec pref env.month weights).match_score +
  windrichtungContribution weights pref rec +
  truebungContribution weights pref rec +
  saisonContribution weights env.month pref +
  bewoelkungContribution weights (isNight env) pref rec +
  regenContribution weights pref rec +
  luftdruckContribution weights pref rec +
  (score_time_of_day env.now env.sunrise env.sunset pref weights buffers
    (rec.cloudFraction.getD 0) (rec.Windgeschwindigkeit.getD 0)
    (rec.precipIntensity.getD 0)).1

/-- `sum(WEIGHTS.values()) or 1.0`: the normalising total weight (a zero sum
falls back to `1`). -/
def total_weight (w : Weights) : ℚ :=
  let s := (w.map Prod.snd).sum
  if s = 0 then 1 else s

/-- Step 11 of the scoring loop: the pre-malus percentage
(`max(10, round_to_next_five(score / total_weight * 100))` for a positive
score, `0` otherwise) and the stored percentage after the rain malus
(`max(0, pre - Regen_Malus)` when precipitation exceeds 5 mm/h). -/
def final_percentages (weights : Weights) (score prec : ℚ) : ℤ × ℚ :=
  let raw_prob := round_to_next_five (score / total_weight weights * 100)
  let final_prob : ℤ := if score > 0 then max 10 raw_prob else 0
  (final_prob,
   if prec > 5 then max 0 ((final_prob : ℚ) - wget weights "Regen_Malus")
   else (final_prob : ℚ))

/-! ## Tips and the per-record result -/

/-- The human-readable tips of the scoring loop, one constructor per
f-string, carrying the data interpolated into the text. -/
inductive Tipp where
  | tiefeTemp (aktuelle_tiefe aktuelle_temp : String) (soll : Option ℚ)
  | windrichtungT (dir : String)
  | truebungT (tb : String)
  | mehrWind
  | mondphaseT (phase : Option String)
  | saisonT
  | bewoelkungT (cs : String)
  | regenT
  | luftdruckT (trend : String)
  | tageszeitT
deriving DecidableEq

/-- Python's `f"{x:.1f}"` applied to an optional value: formatting `None`
raises `TypeError: unsupported format string passed to NoneType.__format__`;
the decimal rendering itself is presentational and modelled by `toString`. -/
def format_1f (x : Option ℚ) : Except String String :=
  match x with
  | none => Except.error "TypeError: unsupported format string passed to NoneType.__format__"
  | some q => Except.ok (toString q)

/-- `_empfohlene_tiefe(pref)`: the median of the seasonally preferred depth
list (summer list for months 5–8, spring/autumn list otherwise), `none` when
that list is empty. -/
def empfohlene_tiefe (month : ℤ) (pref : Preference) : Option ℚ :=
  let lst :=
    if 5 ≤ month ∧ month ≤ 8 then pref.Bevorzugte_Wassertiefe_Sommer
    else pref.Bevorzugte_Wassertiefe_Fruehling_Herbst
  if lst = [] then none
  else
    let sorted := lst.mergeSort (fun a b => decide (a ≤ b))
    some (sorted.getD (sorted.length / 2) 0)

/-- The output record of the scoring loop (the computed fields the loop adds
to the sensor record). -/
structure ScoredResult where
  score : ℚ
  Errechnete_Wassertemperatur : Option ℚ
  Errechnete_Wassertiefe : Option ℚ
  TempTiefe_Match : Bool
  WindrichtungR : String
  TruebungR : String
  Bestes_Fangfenster : TimeWindows
  Fangwahrscheinlichkeit : ℚ
  Tipps : List Tipp

/-- The tips the scoring loop appends for one record, in source order.  The
temperature/depth tip formats two possibly-`None` floats with `:.1f`, so a
record whose temperature/depth parts are `none` makes the whole iteration
raise (modelled by `Except.error`). -/
def recordTipps (expf : ℚ → ℚ) (weights : Weights) (buffers : Buffers)
    (env : Env) (pref : Preference) (rec : SensorRecord) :
    Except String (List Tipp) :=
  let parts := score_temp_and_depth expf buffers env.now rec pref env.month weights
  let tipp1E : Except String (List Tipp) :=
    if parts.matched then Except.ok []
    else
      match format_1f parts.actual_depth with
      | Except.error m => Except.error m
      | Except.ok a =>
          match format_1f parts.temp_at_depth with
          | Except.error m => Except.error m
          | Except.ok t => Except.ok [Tipp.tiefeTemp a t (empfohlene_tiefe env.month pref)]
  match tipp1E with
  | Except.error m => Except.error m
  | Except.ok tipp1 =>
      let wind_dir := windrichtung_of rec
      let tb := classify_truebung rec.Truebung
      let prec := rec.precipIntensity.getD 0
      let tsw := score_time_of_day env.now env.sunrise env.sunset pref weights buffers
        (rec.cloudFraction.getD 0) (rec.Windgeschwindigkeit.getD 0)
        (rec.precipIntensity.getD 0)
      Except.ok (tipp1 ++
        (if windrichtungOk pref rec then [] else [Tipp.windrichtungT wind_dir]) ++
        (if tb ∈ pref.Truebung then [] else [Tipp.truebungT tb]) ++
        (if "windig" ∈ pref.Bevorzugte_Wetter ∧ windNow rec < 4 then [Tipp.mehrWind] else []) ++
        (if mondOk pref rec then [] else [Tipp.mondphaseT rec.Mondphase]) ++
        (let sm := pref.Beste_Fangsaison
         if env.month ∈ sm ∨ (if env.month = 1 then 12 else env.month - 1) ∈ sm ∨
            (if env.month = 12 then 1 else env.month + 1) ∈ sm then []
         else [Tipp.saisonT]) ++
        (if isNight env then []
         else if classify_clouds (some (rec.cloudFraction.getD 0)) ∈ mappedWetter pref then []
         else [Tipp.bewoelkungT (classify_clouds (some (rec.cloudFraction.getD 0)))]) ++
        (if prec > 5 then [Tipp.regenT] else []) ++
        (if luftdruckOk pref rec then [] else [Tipp.luftdruckT (lowerStr (rec.Luftdruck_trend.getD "unbekannt"))]) ++
        (if tsw.1 = 0 then [Tipp.tageszeitT] else []))

/-- One iteration of the scoring loop of
`compute_catch_probability_and_window` for one record: the computed fields,
the stored catch probability and the tips, or the raised exception. -/
def computeRecord (expf : ℚ → ℚ) (weights : Weights) (buffers : Buffers)
    (env : Env) (pref : Preference) (rec : SensorRecord) :
    Except String ScoredResult :=
  let parts := score_temp_and_depth expf buffers env.now rec pref env.month weights
  match recordTipps expf weights buffers env pref rec with
  | Except.error m => Except.error m
  | Except.ok tipps =>
      let tsw := score_time_of_day env.now env.sunrise env.sunset pref weights buffers
        (rec.cloudFraction.getD 0) (rec.Windgeschwindigkeit.getD 0)
        (rec.precipIntensity.getD 0)
      let score := recordScore expf weights buffers env pref rec
      Except.ok
        { score := score
          Errechnete_Wassertemperatur := parts.temp_at_depth
          Errechnete_Wassertiefe := parts.actual_depth
          TempTiefe_Match := parts.matched
          WindrichtungR := windrichtung_of rec
          TruebungR := classify_truebung rec.Truebung
          Bestes_Fangfenster := tsw.2
          Fangwahrscheinlichkeit :=
            (final_percentages weights score (rec.precipIntensity.getD 0)).2
          Tipps := tipps }

/-- `compute_catch_probability_and_window(sensor_records, preferences, loc)`:
the scoring loop over all records.  An unknown species falls back to the
empty preference record (`preferences.get(art, {})`); the first raised
exception aborts the whole loop, as in Python. -/
def compute_catch_probability_and_window (expf : ℚ → ℚ) (weights : Weights)
    (buffers : Buffers) (env : Env) (preferences : List (String × Preference)) :
    List SensorRecord → Except String (List ScoredResult)
  | [] => Except.ok []
  | rec :: rest =>
      match computeRecord expf weights buffers env
          ((List.lookup rec.Art preferences).getD {}) rec with
      | Except.error m => Except.error m
      | Except.ok r =>
          match compute_catch_probability_and_window expf weights buffers env
              preferences rest with
          | Except.error m => Except.error m
          | Except.ok rs => Except.ok (r :: rs)

/-- Projection used to state concrete end-to-end facts: the list of stored
catch probabilities of a successful run. -/
def fangOf (r : Except String (List ScoredResult)) : List ℚ :=
  match r with
  | Except.ok rs => rs.map ScoredResult.Fangwahrscheinlichkeit
  | Except.error _ => []

/-! ## Concrete instantiations for closed statements -/

/-- A fixed stand-in instantiation for the `expf` parameter of the embedding,
used only in closed concrete statements; each fact proved with it is
independent of the values of `expf` (the corresponding general theorems
quantify over an arbitrary `expf`). -/
def expStub : ℚ → ℚ := fun _ => 1

/-- An evaluation context with no sun anchors, month January, noon. -/
def env0 : Env := { now := 720, month := 1, sunrise := none, sunset := none }

/-- A species preferring windy weather and nothing else. -/
def prefWindig : Preference := { Bevorzugte_Wetter := ["windig"] }

/-- A sensor record that carries nothing but a wind-speed reading. -/
def recWind (w : ℚ) : SensorRecord := { Art := "Testfisch", Windgeschwindigkeit := some w }

/-- A species used to witness the wind-tip clause: matching winter depth,
prefers windy weather. -/
def prefC3 : Preference :=
  { Bevorzugte_Wassertiefe_Winter := [1], Bevorzugte_Wetter := ["windig"] }

/-- A record used to witness the wind-tip clause: preset depth 1 m, surface
10 °C, a light 2 m/s breeze. -/
def recC3 : SensorRecord :=
  { Art := "T", Oberflaeche_temp := some 10, Windgeschwindigkeit := some 2,
    actual_depth := some 1 }

/-- A species accepting every moon phase and nothing else. -/
def prefMond : Preference := { Bevorzugte_Mondphase := ["alle"] }

/-- A record carrying only a full-moon label. -/
def recMond : SensorRecord := { Art := "T", Mondphase := some "Vollmond" }

/-- A species used for the C1 end-to-end run: prefers north wind only. -/
def prefC1 : Preference := { Bevorzugte_Windrichtung := ["N"] }

/-- A record used for the C1 end-to-end run: north wind label, 10 °C surface,
6 mm/h of rain, preset depth 1 m in January. -/
def recC1 : SensorRecord :=
  { Art := "Hecht", Oberflaeche_temp := some 10, Windrichtung := some "N",
    precipIntensity := some 6, actual_depth := some 1 }

/-- The preference table of the C1 end-to-end run. -/
def prefsC1 : List (String × Preference) := [("Hecht", prefC1)]

/-- A record whose surface temperature is absent. -/
def recC2 : SensorRecord := { Art := "Hecht" }

/-! ## Helper lemmas -/

lemma clamp_le_high (v low high : ℚ) (h : low ≤ high) : clamp v low high ≤ high :=
  max_le h (min_le_left _ _)

lemma low_le_clamp (v low high : ℚ) : low ≤ clamp v low high := le_max_left _ _

lemma epiDepth_le_six (st w : ℚ) : epiDepth st w ≤ 6 :=
  clamp_le_high _ _ _ (by norm_num)

lemma two_le_epiDepth (st w : ℚ) : 2 ≤ epiDepth st w := low_le_clamp _ _ _

lemma thermoThickness_le_five (w : ℚ) : thermoThickness w ≤ 5 :=
  clamp_le_high _ _ _ (by norm_num)

lemma three_le_thermoThickness (w : ℚ) : 3 ≤ thermoThickness w := low_le_clamp _ _ _

lemma round5_form (q : ℚ) :
    ∃ k : ℤ, 0 ≤ k ∧ k ≤ 20 ∧ round_to_next_five q = 5 * k := by
  refine ⟨max 0 (min 20 ⌈q / 5⌉), ?_, ?_, ?_⟩
  · exact le_max_left _ _
  · simp only [max_le_iff]
    constructor
    · norm_num
    · exact le_trans (min_le_left _ _) le_rfl
  · unfold round_to_next_five
    generalize ⌈q / 5⌉ = c
    omega

lemma round5_fixed (k : ℤ) (h0 : 0 ≤ k) (h1 : k ≤ 20) :
    round_to_next_five ((5 * k : ℤ) : ℚ) = 5 * k := by
  unfold round_to_next_five
  have hq : ((5 * k : ℤ) : ℚ) / 5 = (k : ℚ) := by
    push_cast
    field_simp
  rw [hq, Int.ceil_intCast]
  omega

/-! ## Claim C9 -/

/-- Claim C9: `round_to_next_five` is idempotent on every integer input, its
image over integer inputs is exactly the multiples of 5 in `{0, 5, ..., 100}`
(every output is `5·k` with `k ≤ 20`, and every such value is attained as a
fixed point), and `round_to_next_five 0 = 0`, `round_to_next_five 1 = 5`. -/
theorem c9_round_to_next_five_spec :
    (∀ n : ℤ, round_to_next_five ((round_to_next_five (n : ℚ) : ℤ) : ℚ)
        = round_to_next_five (n : ℚ))
    ∧ (∀ n : ℤ, ∃ k : Fin 21, round_to_next_five (n : ℚ) = 5 * (k : ℤ))
    ∧ (∀ k : Fin 21, round_to_next_five ((5 * (k : ℤ) : ℤ) : ℚ) = 5 * (k : ℤ))
    ∧ round_to_next_five 0 = 0 ∧ round_to_next_five 1 = 5 := by
  refine ⟨?_, ?_, ?_, ?_, ?_⟩
  · intro n
    obtain ⟨k, hk0, hk20, hk⟩ := round5_form ((n : ℚ))
    rw [hk, round5_fixed k hk0 hk20]
  · intro n
    obtain ⟨k, hk0, hk20, hk⟩ := round5_form ((n : ℚ))
    exact ⟨⟨k.toNat, by omega⟩, by rw [hk]; simp; omega⟩
  · intro k
    have h20 : ((k : ℤ)) ≤ 20 := by omega
    exact round5_fixed (k : ℤ) (by omega) h20
  · unfold round_to_next_five
    norm_num
  · unfold round_to_next_five
    have h : ⌈(1 : ℚ) / 5⌉ = 1 := by
      rw [Int.ceil_eq_iff]; norm_num
    rw [h]
    decide

/-! ## Claim C6 -/

lemma floor_div45 (g : ℚ) (z : ℤ) (h1 : 45 * z ≤ g + 22.5) (h2 : g + 22.5 < 45 * (z + 1)) :
    ⌊(g + 22.5) / 45⌋ = z := by
  rw [Int.floor_eq_iff]
  constructor
  · rw [le_div_iff₀ (by norm_num : (0 : ℚ) < 45)]
    linarith
  · rw [div_lt_iff₀ (by norm_num : (0 : ℚ) < 45)]
    linarith

/-- Claim C6 counterexample: the claim asserts bearing 44° maps to `"N"`, but
`((44 + 22.5) // 45) mod 8 = 1`, so the code maps 44° to `"NO"`. -/
theorem c6_counterexample :
    grad_to_windrichtung (some 44) = "NO" ∧ "NO" ≠ "N" := by
  constructor
  · have h : ⌊((44 : ℚ) + 22.5) / 45⌋ = 1 := floor_div45 44 1 (by norm_num) (by norm_num)
    simp only [grad_to_windrichtung, h]
    decide
  · decide

/-- Claim C6 (amended): the resolver maps a bearing via index
`((deg + 22.5) // 45) mod 8` into the 8 labels; bearing 0° (indeed any bearing
in `[0, 22.5)`) maps to `"N"`, the boundary 22.5° maps to `"NO"`, 44° maps to
`"NO"` (not `"N"` as the spec guessed), and 180° maps to `"S"`. -/
theorem c6_grad_to_windrichtung_spec :
    (∀ g : ℚ, grad_to_windrichtung (some g)
        = ["N", "NO", "O", "SO", "S", "SW", "W", "NW"].getD ((⌊(g + 22.5) / 45⌋ % 8).toNat) "N")
    ∧ grad_to_windrichtung (some 0) = "N"
    ∧ (∀ g : ℚ, 0 ≤ g → g < 22.5 → grad_to_windrichtung (some g) = "N")
    ∧ grad_to_windrichtung (some 22.5) = "NO"
    ∧ grad_to_windrichtung (some 44) = "NO"
    ∧ grad_to_windrichtung (some 180) = "S" := by
  refine ⟨fun g => rfl, ?_, ?_, ?_, ?_, ?_⟩
  · have h : ⌊((0 : ℚ) + 22.5) / 45⌋ = 0 := floor_div45 0 0 (by norm_num) (by norm_num)
    simp only [grad_to_windrichtung, h]
    decide
  · intro g h0 h1
    have h : ⌊(g + 22.5) / 45⌋ = 0 := floor_div45 g 0 (by linarith) (by linarith)
    simp only [grad_to_windrichtung, h]
    decide
  · have h : ⌊((22.5 : ℚ) + 22.5) / 45⌋ = 1 := floor_div45 22.5 1 (by norm_num) (by norm_num)
    simp only [grad_to_windrichtung, h]
    decide
  · have h : ⌊((44 : ℚ) + 22.5) / 45⌋ = 1 := floor_div45 44 1 (by norm_num) (by norm_num)
    simp only [grad_to_windrichtung, h]
    decide
  · have h : ⌊((180 : ℚ) + 22.5) / 45⌋ = 4 := floor_div45 180 4 (by norm_num) (by norm_num)
    simp only [grad_to_windrichtung, h]
    decide

/-- Claim C6 witness: the general `[0, 22.5)` clause of the amended claim at
the concrete bearing 10°. -/
theorem c6_grad_to_windrichtung_witness :
    grad_to_windrichtung (some 10) = "N" :=
  c6_grad_to_windrichtung_spec.2.2.1 10 (by norm_num) (by norm_num)

/-! ## Claim C5 -/

lemma temp_profile_sommer_epi (st w c d : ℚ) (h : d ≤ epiDepth st w) :
    temp_profile d st "Sommer" (some w) (some c) = st - d * 0.2 := by
  simp only [temp_profile, Option.getD_some]
  rw [if_pos trivial, if_pos h]

lemma temp_profile_sommer_thermo (st w c d : ℚ) (h1 : ¬ d ≤ epiDepth st w)
    (h2 : d ≤ epiDepth st w + thermoThickness w) :
    temp_profile d st "Sommer" (some w) (some c)
      = st - epiDepth st w * 0.2 - (d - epiDepth st w) * 1.2 := by
  simp only [temp_profile, Option.getD_some]
  rw [if_pos trivial, if_neg h1, if_pos h2]

lemma temp_profile_sommer_hypo (st w c d : ℚ) (h1 : ¬ d ≤ epiDepth st w)
    (h2 : ¬ d ≤ epiDepth st w + thermoThickness w) :
    temp_profile d st "Sommer" (some w) (some c)
      = max (st - epiDepth st w * 0.2 - thermoThickness w * 1.2
             - (d - epiDepth st w - thermoThickness w) * 0.3) 4 := by
  simp only [temp_profile, Option.getD_some]
  rw [if_pos trivial, if_neg h1, if_neg h2]

lemma temp_profile_winter (st d : ℚ) :
    temp_profile d st "Winter" none none
      = (if d ≤ 0.5 then max 0.1 st else 4) := by
  simp only [temp_profile, Option.getD_none]
  rw [if_neg (by decide), if_neg (by decide), if_pos trivial]

/-- Claim C5 counterexample: in summer with surface temperature 4 °C and no
wind, the epilimnion reaches 2 m and the profile at 2 m is 3.6 °C, strictly
below the 4.0 °C floor the claim asserts for all summer depths. -/
theorem c5_counterexample :
    temp_profile 2 4 "Sommer" (some 0) (some 0) = 3.6 ∧ (3.6 : ℚ) < 4 := by
  constructor
  · have he : epiDepth 4 0 = 2 := by
      unfold epiDepth clamp
      norm_num
    rw [temp_profile_sommer_epi 4 0 0 2 (by rw [he])]
    norm_num
  · norm_num

/-- Claim C5 (amended): within one summer call the profile is monotonically
non-increasing on the epilimnion segment and on the thermocline segment; the
4.0 °C summer floor holds unconditionally only in the hypolimnion branch, and
holds at every depth provided the surface temperature is at least 11.2 °C
(for colder summer surfaces the epilimnion/thermocline values can drop below
4 °C, as the counterexample shows); in winter at depth 0 the profile returns
`max(0.1, surface_temp)`, which does not exceed the surface temperature
whenever that temperature is at least 0.1 °C. -/
theorem c5_temp_profile_spec :
    (∀ st w c d1 d2 : ℚ, d1 ≤ d2 → d2 ≤ epiDepth st w →
        temp_profile d2 st "Sommer" (some w) (some c)
          ≤ temp_profile d1 st "Sommer" (some w) (some c))
    ∧ (∀ st w c d1 d2 : ℚ, epiDepth st w < d1 → d1 ≤ d2 →
        d2 ≤ epiDepth st w + thermoThickness w →
        temp_profile d2 st "Sommer" (some w) (some c)
          ≤ temp_profile d1 st "Sommer" (some w) (some c))
    ∧ (∀ st w c d : ℚ, ¬ d ≤ epiDepth st w + thermoThickness w →
        4 ≤ temp_profile d st "Sommer" (some w) (some c))
    ∧ (∀ st w c d : ℚ, 11.2 ≤ st →
        4 ≤ temp_profile d st "Sommer" (some w) (some c))
    ∧ (∀ st : ℚ, 0.1 ≤ st → temp_profile 0 st "Winter" none none ≤ st) := by
  refine ⟨?_, ?_, ?_, ?_, ?_⟩
  · intro st w c d1 d2 h12 h2
    rw [temp_profile_sommer_epi st w c d1 (le_trans h12 h2),
        temp_profile_sommer_epi st w c d2 h2]
    linarith
  · intro st w c d1 d2 h1 h12 h2
    rw [temp_profile_sommer_thermo st w c d1 (not_le.mpr h1) (le_trans h12 h2),
        temp_profile_sommer_thermo st w c d2 (not_le.mpr (lt_of_lt_of_le h1 h12)) h2]
    linarith
  · intro st w c d h2
    have h1 : ¬ d ≤ epiDepth st w := by
      have := three_le_thermoThickness w
      intro hle
      exact h2 (by linarith)
    rw [temp_profile_sommer_hypo st w c d h1 h2]
    exact le_max_right _ _
  · intro st w c d hst
    have hepi6 := epiDepth_le_six st w
    have hepi2 := two_le_epiDepth st w
    have hth5 := thermoThickness_le_five w
    have hth3 := three_le_thermoThickness w
    by_cases h1 : d ≤ epiDepth st w
    · rw [temp_profile_sommer_epi st w c d h1]
      linarith
    · by_cases h2 : d ≤ epiDepth st w + thermoThickness w
      · rw [temp_profile_sommer_thermo st w c d h1 h2]
        have hd1 : epiDepth st w < d := not_le.mp h1
        linarith
      · rw [temp_profile_sommer_hypo st w c d h1 h2]
        exact le_max_right _ _
  · intro st hst
    rw [temp_profile_winter st 0, if_pos (by norm_num)]
    exact max_le hst le_rfl

/-- Claim C5 witness: the amended claim's clauses at concrete inputs —
epilimnion monotonicity between 1 m and 2 m at 18 °C, the 11.2 °C-guarded
summer floor at 20 °C/7 m, and the winter surface bound at 5 °C. -/
theorem c5_temp_profile_witness :
    (temp_profile 2 18 "Sommer" (some 0) (some 0)
      ≤ temp_profile 1 18 "Sommer" (some 0) (some 0))
    ∧ 4 ≤ temp_profile 7 20 "Sommer" (some 0) (some 0)
    ∧ temp_profile 0 5 "Winter" none none ≤ 5 := by
  refine ⟨?_, ?_, ?_⟩
  · refine c5_temp_profile_spec.1 18 0 0 1 2 (by norm_num) ?_
    have := two_le_epiDepth 18 0
    unfold epiDepth clamp at this ⊢
    norm_num
  · exact c5_temp_profile_spec.2.2.2.1 20 0 0 7 (by norm_num)
  · exact c5_temp_profile_spec.2.2.2.2 5 (by norm_num)

/-! ## Claim C10 -/

lemma minby_foldl_mem (f : ℚ → ℚ) :
    ∀ (xs : List ℚ) (x : ℚ),
      xs.foldl (fun b d => if f d < f b then d else b) x ∈ x :: xs := by
  intro xs
  induction xs with
  | nil => intro x; simp
  | cons d ds ih =>
      intro x
      simp only [List.foldl_cons]
      by_cases hc : f d < f x
      · rw [if_pos hc]
        exact List.mem_cons_of_mem x (ih d)
      · rw [if_neg hc]
        rcases List.mem_cons.mp (ih x) with h1 | h1
        · rw [h1]
          simp
        · simp [h1]

lemma min_by_mem (f : ℚ → ℚ) (l : List ℚ) (h : l ≠ []) : min_by f l ∈ l := by
  match l with
  | [] => exact absurd rfl h
  | x :: xs => exact minby_foldl_mem f xs x

lemma candidatesFor_subset (pd : List ℚ) (limit : Option ℚ) :
    ∀ a ∈ candidatesFor pd limit, a ∈ pd := by
  intro a ha
  unfold candidatesFor at ha
  match limit with
  | none => exact ha
  | some l =>
      simp only at ha
      by_cases hc : pd.filter (fun d => decide (d ≤ l)) = []
      · rw [if_pos hc] at ha
        exact ha
      · rw [if_neg hc] at ha
        exact List.mem_of_mem_filter ha

lemma candidatesFor_ne_nil (pd : List ℚ) (limit : Option ℚ) (h : pd ≠ []) :
    candidatesFor pd limit ≠ [] := by
  unfold candidatesFor
  match limit with
  | none => exact h
  | some l =>
      simp only
      by_cases hc : pd.filter (fun d => decide (d ≤ l)) = []
      · rw [if_pos hc]
        exact h
      · rw [if_neg hc]
        exact hc

lemma foldl_min_le (xs : List ℚ) :
    ∀ (x a : ℚ), (a = x ∨ a ∈ xs) → xs.foldl min x ≤ a := by
  induction xs with
  | nil =>
      intro x a h
      rcases h with h | h
      · simp [h]
      · simp at h
  | cons d ds ih =>
      intro x a h
      simp only [List.foldl_cons]
      rcases h with h | h
      · subst h
        exact le_trans (ih (min a d) (min a d) (Or.inl rfl)) (min_le_left a d)
      · rcases List.mem_cons.mp h with h1 | h1
        · subst h1
          exact le_trans (ih (min x a) (min x a) (Or.inl rfl)) (min_le_right x a)
        · exact ih (min x d) a (Or.inr h1)

lemma foldl_le_max (xs : List ℚ) :
    ∀ (x a : ℚ), (a = x ∨ a ∈ xs) → a ≤ xs.foldl max x := by
  induction xs with
  | nil =>
      intro x a h
      rcases h with h | h
      · simp [h]
      · simp at h
  | cons d ds ih =>
      intro x a h
      simp only [List.foldl_cons]
      rcases h with h | h
      · subst h
        exact le_trans (le_max_left a d) (ih (max a d) (max a d) (Or.inl rfl))
      · rcases List.mem_cons.mp h with h1 | h1
        · subst h1
          exact le_trans (le_max_right x a) (ih (max x a) (max x a) (Or.inl rfl))
        · exact ih (max x d) a (Or.inr h1)

lemma pymin_le_of_mem (l : List ℚ) (a : ℚ) (h : a ∈ l) : pymin l ≤ a := by
  match l with
  | [] => simp at h
  | x :: xs =>
      unfold pymin
      exact foldl_min_le xs x a (List.mem_cons.mp h)

lemma le_pymax_of_mem (l : List ℚ) (a : ℚ) (h : a ∈ l) : a ≤ pymax l := by
  match l with
  | [] => simp at h
  | x :: xs =>
      unfold pymax
      exact foldl_le_max xs x a (List.mem_cons.mp h)

lemma pymin_le_pymax (l : List ℚ) (h : l ≠ []) : pymin l ≤ pymax l := by
  match l with
  | [] => exact absurd rfl h
  | x :: xs =>
      exact le_trans (pymin_le_of_mem (x :: xs) x (by simp))
        (le_pymax_of_mem (x :: xs) x (by simp))

/-- Claim C10: with an empty preferred-depth list `choose_best_depth` returns
exactly 0; with a non-empty list the chosen depth always lies in the closed
interval between the smallest and the largest preferred depth — for every
surface temperature, season, temperature preference list, time-of-day bias,
wind speed and cloud value. -/
theorem c10_choose_best_depth_spec :
    (∀ (st : ℚ) (season : String) (pt : List ℚ) (tb : Option String) (w c : ℚ),
        choose_best_depth st season [] pt tb w c = 0)
    ∧ (∀ (st : ℚ) (season : String) (pd pt : List ℚ) (tb : Option String) (w c : ℚ),
        pd ≠ [] →
        pymin pd ≤ choose_best_depth st season pd pt tb w c ∧
        choose_best_depth st season pd pt tb w c ≤ pymax pd) := by
  constructor
  · intro st season pt tb w c
    unfold choose_best_depth
    rw [if_pos rfl]
  · intro st season pd pt tb w c h
    unfold choose_best_depth
    rw [if_neg h]
    simp only
    set cands := candidatesFor pd
      ((stratification_layers st season w).1.map
        (fun epi => epi + (stratification_layers st season w).2)) with hcands
    set f := fun d =>
      |temp_profile d st season (some w) (some c) -
        (if pt = [] then st else pt.sum / pt.length)| with hf
    have hmem : min_by f cands ∈ pd :=
      candidatesFor_subset pd _ _ (min_by_mem f cands (candidatesFor_ne_nil pd _ h))
    have hlo : pymin pd ≤ min_by f cands := pymin_le_of_mem pd _ hmem
    have hhi : min_by f cands ≤ pymax pd := le_pymax_of_mem pd _ hmem
    have hmm : pymin pd ≤ pymax pd := pymin_le_pymax pd h
    split_ifs with h1 h2
    · exact ⟨le_max_left _ _, max_le hmm (by linarith)⟩
    · exact ⟨le_min hmm (by linarith), min_le_left _ _⟩
    · exact ⟨hlo, hhi⟩

/-- Claim C10 witness: the interval bound at a concrete call (winter, two
preferred depths) and the empty-list clause at a concrete call. -/
theorem c10_choose_best_depth_witness :
    (pymin [2, 5] ≤ choose_best_depth 10 "Winter" [2, 5] [6] none 0 0 ∧
      choose_best_depth 10 "Winter" [2, 5] [6] none 0 0 ≤ pymax [2, 5])
    ∧ choose_best_depth 10 "Winter" [] [6] none 0 0 = 0 := by
  constructor
  · exact c10_choose_best_depth_spec.2 10 "Winter" [2, 5] [6] none 0 0 (by simp)
  · exact c10_choose_best_depth_spec.1 10 "Winter" [6] none 0 0

/-! ## Claim C8 -/

/-- Claim C8: a window whose start is after its end is treated as spanning
midnight (`now ≥ start ∨ now ≤ end`); and for the night window built from
sunset 20:00 and next-day sunrise 06:00 (in minutes: the window
`build_time_windows` produces from the anchors 06:00/20:00 under clear, calm,
dry conditions is 20:30 → 06:30 of the next day), the instants 23:00 and
02:00 are inside and 12:00 is outside — likewise for the raw
20:00 → 06:00-plus-24h window and for the same window expressed as clock
times with start after end. -/
theorem c8_time_in_window_spec :
    (∀ now s e : ℚ, e < s → (time_in_window now s e = true ↔ (s ≤ now ∨ now ≤ e)))
    ∧ (build_time_windows (some 360) (some 1200) ["Nacht"] 0 0 0 fallback_buffers).Nacht
        = some (1230, 1830)
    ∧ time_in_window 1380 1230 1830 = true
    ∧ time_in_window 1560 1230 1830 = true
    ∧ time_in_window 720 1230 1830 = false
    ∧ time_in_window 1380 1200 1800 = true
    ∧ time_in_window 1560 1200 1800 = true
    ∧ time_in_window 720 1200 1800 = false
    ∧ time_in_window 1380 1200 360 = true
    ∧ time_in_window 120 1200 360 = true
    ∧ time_in_window 720 1200 360 = false := by
  refine ⟨?_, ?_, ?_, ?_, ?_, ?_, ?_, ?_, ?_, ?_, ?_⟩
  · intro now s e h
    unfold time_in_window
    rw [if_neg (not_lt.mpr (le_of_lt h))]
    simp [ge_iff_le]
  · unfold build_time_windows light_modifier clamp bget fallback_buffers
    norm_num [List.lookup]
    simp +decide
    norm_num
  · unfold time_in_window
    norm_num
  · unfold time_in_window
    norm_num
  · unfold time_in_window
    norm_num
  · unfold time_in_window
    norm_num
  · unfold time_in_window
    norm_num
  · unfold time_in_window
    norm_num
  · unfold time_in_window
    norm_num
  · unfold time_in_window
    norm_num
  · unfold time_in_window
    norm_num

/-- Claim C8 witness: the midnight-spanning clause at the concrete clock-time
window 20:00 → 06:00 and the instant 23:00. -/
theorem c8_time_in_window_witness :
    time_in_window 1380 1200 360 = true ↔ ((1200 : ℚ) ≤ 1380 ∨ (1380 : ℚ) ≤ 360) :=
  c8_time_in_window_spec.1 1380 1200 360 (by norm_num)

/-! ## Claim C7 -/

/-- Claim C7: the season factor contributes the full configured season weight
when the current month is in the species' best-season set, and half that
weight when the month itself is absent but an adjacent month (±1 with
December/January wraparound) is present; in particular with best season
`[6, 7, 8]` the factor contributes the full weight in month 7 and half the
weight in month 5. -/
theorem c7_saison_spec :
    (∀ (w : Weights) (pref : Preference) (m : ℤ),
        m ∈ pref.Beste_Fangsaison →
        saisonContribution w m pref = wget w "Saison")
    ∧ (∀ (w : Weights) (pref : Preference) (m : ℤ),
        m ∉ pref.Beste_Fangsaison →
        ((if m = 1 then 12 else m - 1) ∈ pref.Beste_Fangsaison ∨
         (if m = 12 then 1 else m + 1) ∈ pref.Beste_Fangsaison) →
        saisonContribution w m pref = wget w "Saison" * 0.5)
    ∧ (∀ w : Weights,
        saisonContribution w 7 { Beste_Fangsaison := [6, 7, 8] } = wget w "Saison")
    ∧ (∀ w : Weights,
        saisonContribution w 5 { Beste_Fangsaison := [6, 7, 8] } = wget w "Saison" * 0.5) := by
  refine ⟨?_, ?_, ?_, ?_⟩
  · intro w pref m hm
    unfold saisonContribution
    rw [if_pos hm]
  · intro w pref m hm hadj
    unfold saisonContribution
    rw [if_neg hm, if_pos hadj]
  · intro w
    unfold saisonContribution
    rw [if_pos (by decide)]
  · intro w
    unfold saisonContribution
    rw [if_neg (by decide), if_pos (by decide)]

/-- Claim C7 witness: both general clauses at concrete inputs — month 7 is in
`[6, 7, 8]` (full weight), month 5 is adjacent to 6 (half weight) — under the
fallback weight table. -/
theorem c7_saison_witness :
    saisonContribution fallback_weights 7 { Beste_Fangsaison := [6, 7, 8] }
        = wget fallback_weights "Saison"
    ∧ saisonContribution fallback_weights 5 { Beste_Fangsaison := [6, 7, 8] }
        = wget fallback_weights "Saison" * 0.5 :=
  ⟨c7_saison_spec.1 fallback_weights { Beste_Fangsaison := [6, 7, 8] } 7 (by decide),
   c7_saison_spec.2.1 fallback_weights { Beste_Fangsaison := [6, 7, 8] } 5 (by decide)
     (Or.inr (by decide))⟩

/-! ## Claim C3 -/

/-- Claim C3 counterexample: a species that prefers `"windy"` gets exactly
the same accumulated score with 8 m/s of wind as with calm air — the score
is 0 in both cases although the configured `"Windig"` weight is 4, so no
wind-speed ramp (0 at 4 m/s up to full weight at 8 m/s) is ever added. -/
theorem c3_counterexample :
    recordScore expStub fallback_weights fallback_buffers env0 prefWindig (recWind 8) = 0
    ∧ recordScore expStub fallback_weights fallback_buffers env0 prefWindig (recWind 0) = 0
    ∧ wget fallback_weights "Windig" = 4 := by
  refine ⟨?_, ?_, ?_⟩
  · simp +decide [recordScore, score_temp_and_depth, windrichtungContribution,
      windrichtungOk, windrichtung_of, truebungContribution, classify_truebung,
      saisonContribution, bewoelkungContribution, mappedWetter, classify_clouds,
      regenContribution, classify_precip, luftdruckContribution, luftdruckOk,
      trend_map, isNight, score_time_of_day, build_time_windows, windowContribution,
      lowerStr, lowerChar, wget, bget, fallback_weights, fallback_buffers, expStub,
      prefWindig, recWind, env0, light_modifier, clamp, time_in_window]
    norm_num
    decide
  · simp +decide [recordScore, score_temp_and_depth, windrichtungContribution,
      windrichtungOk, windrichtung_of, truebungContribution, classify_truebung,
      saisonContribution, bewoelkungContribution, mappedWetter, classify_clouds,
      regenContribution, classify_precip, luftdruckContribution, luftdruckOk,
      trend_map, isNight, score_time_of_day, build_time_windows, windowContribution,
      lowerStr, lowerChar, wget, bget, fallback_weights, fallback_buffers, expStub,
      prefWindig, recWind, env0, light_modifier, clamp, time_in_window]
    norm_num
    decide
  · decide

lemma temp_profile_wind_irrel (d st : ℚ) (season : String) (w1 w2 c : Option ℚ)
    (h : season ≠ "Sommer") :
    temp_profile d st season w1 c = temp_profile d st season w2 c := by
  simp only [temp_profile]
  rw [if_neg h, if_neg h]

lemma std_wind_irrel (expf : ℚ → ℚ) (b : Buffers) (now : ℚ) (rec : SensorRecord)
    (pref : Preference) (month : ℤ) (weights : Weights) (w1 w2 : Option ℚ) (d : ℚ)
    (hd : rec.actual_depth = some d) (hmon : get_season month ≠ "Sommer") :
    score_temp_and_depth expf b now { rec with Windgeschwindigkeit := w1 } pref month weights
      = score_temp_and_depth expf b now { rec with Windgeschwindigkeit := w2 } pref month weights := by
  simp only [score_temp_and_depth, hd]
  cases hs : rec.Oberflaeche_temp with
  | none => rfl
  | some st =>
      simp only [hs]
      rw [temp_profile_wind_irrel d st (get_season month)
        (some (w1.getD 0)) (some (w2.getD 0)) (some (rec.cloudFraction.getD 0)) hmon]

lemma score_time_of_day_none (now : ℚ) (pref : Preference) (w : Weights)
    (b : Buffers) (c wi p : ℚ) :
    (score_time_of_day now none none pref w b c wi p).1 = 0 := by
  unfold score_time_of_day build_time_windows
  rw [if_pos ⟨rfl, rfl⟩]
  simp [windowContribution]

lemma mem_ite_nil_left (a : Tipp) (c : Prop) [Decidable c] (l : List Tipp) :
    (a ∈ if c then [] else l) ↔ (¬ c ∧ a ∈ l) := by
  split <;> simp_all

lemma mem_ite_nil_right (a : Tipp) (c : Prop) [Decidable c] (l : List Tipp) :
    (a ∈ if c then l else []) ↔ (c ∧ a ∈ l) := by
  split <;> simp_all

/-- Claim C3 (amended): the wind-speed factor never contributes to the score:
under conditions that neutralise wind's indirect influences (a preset fishing
depth, a non-summer month, no sun anchors) the accumulated score is identical
for any two wind-speed readings — there is no ramp from 4 m/s to 8 m/s; the
only effect of the wind-speed factor is the "more wind" tip, emitted exactly
when the species prefers `"windig"` and the effective wind speed is below 4. -/
theorem c3_windig_spec :
    (∀ (expf : ℚ → ℚ) (w : Weights) (b : Buffers) (env : Env) (pref : Preference)
        (rec : SensorRecord) (w1 w2 : Option ℚ) (d : ℚ),
        rec.actual_depth = some d → env.sunrise = none → env.sunset = none →
        get_season env.month ≠ "Sommer" →
        recordScore expf w b env pref { rec with Windgeschwindigkeit := w1 }
          = recordScore expf w b env pref { rec with Windgeschwindigkeit := w2 })
    ∧ (∀ (expf : ℚ → ℚ) (w : Weights) (b : Buffers) (env : Env) (pref : Preference)
        (rec : SensorRecord) (t : List Tipp),
        recordTipps expf w b env pref rec = Except.ok t →
        (Tipp.mehrWind ∈ t ↔
          ("windig" ∈ pref.Bevorzugte_Wetter ∧ windNow rec < 4))) := by
  constructor
  · intro expf w b env pref rec w1 w2 d hd hsr hss hmon
    unfold recordScore
    rw [std_wind_irrel expf b env.now rec pref env.month w w1 w2 d hd hmon]
    rw [hsr, hss]
    simp only [score_time_of_day_none]
    rfl
  · intro expf w b env pref rec t h
    simp only [recordTipps] at h
    split at h
    · exact absurd h (by simp)
    · rename_i tipp1 heq
      have h1 : Tipp.mehrWind ∉ tipp1 := by
        split at heq
        · rw [Except.ok.injEq] at heq
          rw [← heq]
          simp
        · split at heq
          · exact absurd heq (by simp)
          · split at heq
            · exact absurd heq (by simp)
            · rw [Except.ok.injEq] at heq
              rw [← heq]
              simp
      rw [Except.ok.injEq] at h
      rw [← h]
      simp only [List.mem_append, mem_ite_nil_left, mem_ite_nil_right]
      simp [h1]

/-- Claim C3 witness: both clauses of the amended claim at concrete inputs —
score equality between 8 m/s and calm air for a winter record with preset
depth, and the "more wind" tip for a windy-preferring species at 2 m/s. -/
theorem c3_windig_witness :
    (recordScore expStub fallback_weights fallback_buffers env0 prefWindig
        { ({ Art := "T", actual_depth := some 1 } : SensorRecord) with
            Windgeschwindigkeit := some 8 }
      = recordScore expStub fallback_weights fallback_buffers env0 prefWindig
        { ({ Art := "T", actual_depth := some 1 } : SensorRecord) with
            Windgeschwindigkeit := some 0 })
    ∧ (Tipp.mehrWind ∈
        [Tipp.windrichtungT "unbekannt", Tipp.truebungT "klar", Tipp.mehrWind,
         Tipp.mondphaseT none, Tipp.saisonT, Tipp.bewoelkungT "klar",
         Tipp.luftdruckT "unbekannt", Tipp.tageszeitT] ↔
        ("windig" ∈ prefC3.Bevorzugte_Wetter ∧ windNow recC3 < 4)) := by
  constructor
  · exact c3_windig_spec.1 expStub fallback_weights fallback_buffers env0 prefWindig
      { Art := "T", actual_depth := some 1 } (some 8) (some 0) 1 rfl rfl rfl (by decide)
  · refine c3_windig_spec.2 expStub fallback_weights fallback_buffers env0 prefC3 recC3 _ ?_
    simp +decide [recordTipps, score_temp_and_depth, recC3, prefC3, env0, expStub,
      windrichtungOk, windrichtung_of, classify_truebung, windNow, mondOk,
      isNight, classify_clouds, mappedWetter, luftdruckOk, trend_map, lowerStr,
      lowerChar, wget, bget, fallback_weights, fallback_buffers,
      score_time_of_day, build_time_windows, windowContribution, temp_profile,
      gauss_score, format_1f, empfohlene_tiefe, pymin, pymax, light_modifier,
      clamp, time_in_window, HALF_MOONS, List.lookup]
    norm_num
    decide

/-! ## Claim C4 -/

/-- Claim C4 counterexample: a species that prefers `"alle"` moon phases
satisfies the moon condition, yet its accumulated score is 0 although the
configured moon-phase weight is 3 — the moon factor never contributes. -/
theorem c4_counterexample :
    mondOk prefMond recMond = true
    ∧ recordScore expStub fallback_weights fallback_buffers env0 prefMond recMond = 0
    ∧ wget fallback_weights "Mondphase" = 3 := by
  refine ⟨by decide, ?_, by decide⟩
  simp +decide [recordScore, score_temp_and_depth, windrichtungContribution,
    windrichtungOk, windrichtung_of, truebungContribution, classify_truebung,
    saisonContribution, bewoelkungContribution, mappedWetter, classify_clouds,
    regenContribution, classify_precip, luftdruckContribution, luftdruckOk,
    trend_map, isNight, score_time_of_day, build_time_windows, windowContribution,
    lowerStr, lowerChar, wget, bget, fallback_weights, fallback_buffers, expStub,
    prefMond, recMond, env0, light_modifier, clamp, time_in_window]

/-- Claim C4 (amended): the moon-phase factor never contributes to the score
— the accumulated score is identical for every value of the record's moon
phase; the condition (species prefers `"alle"`, the observed label matches,
or `"halbmond"` is accepted and the observed phase is waxing/waning) gates
only whether the moon tip is emitted. -/
theorem c4_mondphase_spec :
    (∀ (expf : ℚ → ℚ) (w : Weights) (b : Buffers) (env : Env) (pref : Preference)
        (rec : SensorRecord) (p : Option String),
        recordScore expf w b env pref { rec with Mondphase := p }
          = recordScore expf w b env pref rec)
    ∧ (∀ (expf : ℚ → ℚ) (w : Weights) (b : Buffers) (env : Env) (pref : Preference)
        (rec : SensorRecord) (t : List Tipp),
        recordTipps expf w b env pref rec = Except.ok t →
        (Tipp.mondphaseT rec.Mondphase ∈ t ↔ ¬ (mondOk pref rec = true))) := by
  constructor
  · intro expf w b env pref rec p
    rfl
  · intro expf w b env pref rec t h
    simp only [recordTipps] at h
    split at h
    · exact absurd h (by simp)
    · rename_i tipp1 heq
      have h1 : Tipp.mondphaseT rec.Mondphase ∉ tipp1 := by
        split at heq
        · rw [Except.ok.injEq] at heq
          rw [← heq]
          simp
        · split at heq
          · exact absurd heq (by simp)
          · split at heq
            · exact absurd heq (by simp)
            · rw [Except.ok.injEq] at heq
              rw [← heq]
              simp
      rw [Except.ok.injEq] at h
      rw [← h]
      simp only [List.mem_append, mem_ite_nil_left, mem_ite_nil_right]
      simp [h1]

/-- Claim C4 witness: the tip clause of the amended claim at a concrete input
(a species with no moon preference gets the moon tip). -/
theorem c4_mondphase_witness :
    Tipp.mondphaseT none ∈
      [Tipp.windrichtungT "unbekannt", Tipp.truebungT "klar", Tipp.mehrWind,
       Tipp.mondphaseT none, Tipp.saisonT, Tipp.bewoelkungT "klar",
       Tipp.luftdruckT "unbekannt", Tipp.tageszeitT] ↔
      ¬ (mondOk prefC3 recC3 = true) := by
  refine c4_mondphase_spec.2 expStub fallback_weights fallback_buffers env0 prefC3 recC3 _ ?_
  simp +decide [recordTipps, score_temp_and_depth, recC3, prefC3, env0, expStub,
    windrichtungOk, windrichtung_of, classify_truebung, windNow, mondOk,
    isNight, classify_clouds, mappedWetter, luftdruckOk, trend_map, lowerStr,
    lowerChar, wget, bget, fallback_weights, fallback_buffers,
    score_time_of_day, build_time_windows, windowContribution, temp_profile,
    gauss_score, format_1f, empfohlene_tiefe, pymin, pymax, light_modifier,
    clamp, time_in_window, HALF_MOONS, List.lookup]
  norm_num
  decide

/-! ## Claim C1 -/

/-- Claim C1 (amended): the pre-malus percentage is always a multiple of 5 in
`{0, 5, ..., 100}`, is at least 10 whenever the accumulated score is strictly
positive and exactly 0 when the score is 0; when precipitation exceeds
5 mm/h the configured rain-malus weight is subtracted from that percentage
after the floor-at-10 rule, floored at 0 — so the stored percentage is always
non-negative but (as the counterexample shows) need not remain a multiple
of 5; the percentage every scored record stores is exactly this final-stage
value applied to its accumulated score and precipitation. -/
theorem c1_final_percentages_spec :
    (∀ (w : Weights) (score prec : ℚ), ∃ k : Fin 21,
        (final_percentages w score prec).1 = 5 * (k : ℤ))
    ∧ (∀ (w : Weights) (score prec : ℚ), score > 0 →
        10 ≤ (final_percentages w score prec).1)
    ∧ (∀ (w : Weights) (score prec : ℚ), score = 0 →
        (final_percentages w score prec).1 = 0)
    ∧ (∀ (w : Weights) (score prec : ℚ), prec > 5 →
        (final_percentages w score prec).2
          = max 0 (((final_percentages w score prec).1 : ℚ) - wget w "Regen_Malus"))
    ∧ (∀ (w : Weights) (score prec : ℚ), 0 ≤ (final_percentages w score prec).2)
    ∧ (∀ (expf : ℚ → ℚ) (w : Weights) (b : Buffers) (env : Env) (pref : Preference)
        (rec : SensorRecord) (r : ScoredResult),
        computeRecord expf w b env pref rec = Except.ok r →
        r.Fangwahrscheinlichkeit
          = (final_percentages w (recordScore expf w b env pref rec)
              (rec.precipIntensity.getD 0)).2) := by
  refine ⟨?_, ?_, ?_, ?_, ?_, ?_⟩
  · intro w score prec
    obtain ⟨k, h0, h20, hk⟩ := round5_form (score / total_weight w * 100)
    simp only [final_percentages, hk]
    by_cases hs : score > 0
    · rw [if_pos hs]
      refine ⟨⟨(max 2 k).toNat, by omega⟩, ?_⟩
      simp
      omega
    · rw [if_neg hs]
      exact ⟨⟨0, by omega⟩, by simp⟩
  · intro w score prec hs
    simp only [final_percentages]
    rw [if_pos hs]
    exact le_max_left _ _
  · intro w score prec hs
    simp only [final_percentages]
    rw [if_neg (by rw [hs]; exact lt_irrefl 0)]
  · intro w score prec hp
    simp only [final_percentages]
    rw [if_pos hp]
  · intro w score prec
    simp only [final_percentages]
    by_cases hp : prec > 5
    · rw [if_pos hp]
      exact le_max_left _ _
    · rw [if_neg hp]
      by_cases hs : score > 0
      · rw [if_pos hs]
        have h10 : (0 : ℤ) ≤ max 10 (round_to_next_five (score / total_weight w * 100)) :=
          le_trans (by norm_num) (le_max_left _ _)
        exact_mod_cast h10
      · rw [if_neg hs]
        norm_num
  · intro expf w b env pref rec r h
    simp only [computeRecord] at h
    split at h
    · exact absurd h (by simp)
    · rw [Except.ok.injEq] at h
      rw [← h]

/-- Claim C1 witness: the amended claim's floor-at-10 clause, the rain-malus
clause and the zero-score clause at concrete inputs (fallback weights,
score 1, precipitation 6 mm/h). -/
theorem c1_final_percentages_witness :
    10 ≤ (final_percentages fallback_weights 1 6).1
    ∧ (final_percentages fallback_weights 1 6).2
        = max 0 (((final_percentages fallback_weights 1 6).1 : ℚ)
            - wget fallback_weights "Regen_Malus")
    ∧ (final_percentages fallback_weights 0 0).1 = 0 :=
  ⟨c1_final_percentages_spec.2.1 fallback_weights 1 6 (by norm_num),
   c1_final_percentages_spec.2.2.2.1 fallback_weights 1 6 (by norm_num),
   c1_final_percentages_spec.2.2.1 fallback_weights 0 0 rfl⟩

lemma c1_score_eval :
    recordScore expStub fallback_weights fallback_buffers env0 prefC1 recC1 = 5 := by
  simp +decide [recordScore, score_temp_and_depth, windrichtungContribution,
    windrichtungOk, windrichtung_of, truebungContribution, classify_truebung,
    saisonContribution, bewoelkungContribution, mappedWetter, classify_clouds,
    regenContribution, classify_precip, luftdruckContribution, luftdruckOk,
    trend_map, isNight, score_time_of_day, build_time_windows, windowContribution,
    lowerStr, lowerChar, wget, bget, fallback_weights, fallback_buffers, expStub,
    prefC1, recC1, env0, light_modifier, clamp, time_in_window, temp_profile,
    gauss_score, pymin, pymax, List.lookup]

lemma c1_final_eval : (final_percentages fallback_weights 5 6).2 = 7 := by
  have hsum : total_weight fallback_weights = 97 := by
    simp [total_weight, fallback_weights]
    norm_num
  have hdiv : ((5 : ℚ) / 97 * 100) / 5 = 100 / 97 := by norm_num
  have hceil : ⌈((5 : ℚ) / 97 * 100) / 5⌉ = 2 := by
    rw [hdiv, Int.ceil_eq_iff]
    constructor
    · norm_num
    · rw [div_le_iff₀ (by norm_num : (0 : ℚ) < 97)]
      norm_num
  simp only [final_percentages, round_to_next_five, hsum, hceil]
  rw [if_pos (by norm_num : (5 : ℚ) > 0), if_pos (by norm_num : (6 : ℚ) > 5)]
  have hget : wget fallback_weights "Regen_Malus" = 3 := by decide
  rw [hget]
  norm_num

/-- Claim C1 counterexample: running the full scoring loop on a concrete
record (score 5, precipitation 6 mm/h, fallback weights) stores the catch
probability 7 % — the rain malus of 3 is subtracted after rounding, so the
stored percentage is not a multiple of 5. -/
theorem c1_counterexample :
    fangOf (compute_catch_probability_and_window expStub fallback_weights
        fallback_buffers env0 prefsC1 [recC1]) = [7]
    ∧ (7 : ℤ) % 5 ≠ 0 := by
  constructor
  · have hpref : (List.lookup recC1.Art prefsC1).getD {} = prefC1 := by
      simp +decide [prefsC1, recC1, List.lookup]
    have hprec : recC1.precipIntensity.getD 0 = 6 := by simp [recC1]
    cases hrt : recordTipps expStub fallback_weights fallback_buffers env0 prefC1 recC1 with
    | error m =>
        exfalso
        simp +decide [recordTipps, score_temp_and_depth, recC1, prefC1, env0, expStub,
          windrichtungOk, windrichtung_of, classify_truebung, windNow, mondOk,
          isNight, classify_clouds, mappedWetter, luftdruckOk, trend_map, lowerStr,
          lowerChar, wget, bget, fallback_weights, fallback_buffers,
          score_time_of_day, build_time_windows, windowContribution, temp_profile,
          gauss_score, format_1f, empfohlene_tiefe, pymin, pymax, light_modifier,
          clamp, time_in_window, HALF_MOONS, List.lookup] at hrt
    | ok t =>
        simp only [compute_catch_probability_and_window, hpref, computeRecord, hrt]
        simp only [fangOf, List.map]
        rw [c1_score_eval, hprec, c1_final_eval]
  · decide

/-! ## Claim C2 -/

/-- Claim C2: the first half of the claim holds — a missing surface
temperature short-circuits `score_temp_and_depth` to the all-zero/`none`
parts, and missing sunrise/sunset anchors make the time-of-day contribution
zero — but the loop then formats those `None` temperature/depth values with
`:.1f` while building the "Tiefe/Temp passt nicht" tip, so the whole
computation raises `TypeError` instead of returning a result for the
record. -/
theorem c2_missing_surface_crash :
    score_temp_and_depth expStub fallback_buffers env0.now recC2 prefC1 env0.month
        fallback_weights
      = { temp_score := 0, depth_score := 0, match_score := 0, temp_at_depth := none,
          actual_depth := none, matched := false, diff_t := none, min_diff_d := none }
    ∧ (score_time_of_day env0.now none none prefC1 fallback_weights fallback_buffers
        0 0 0).1 = 0
    ∧ compute_catch_probability_and_window expStub fallback_weights fallback_buffers env0
        prefsC1 [recC2]
      = Except.error "TypeError: unsupported format string passed to NoneType.__format__" := by
  refine ⟨rfl, score_time_of_day_none env0.now prefC1 fallback_weights fallback_buffers 0 0 0, ?_⟩
  rfl
